import Mathlib

/-!
Verification of `llm-primitives-rs` (src/src/lib.rs) against its
natural-language specification.

The library is a client for a remote chat-completion endpoint exposing six
primitives (classify, binary_classify, generate_text, score_int, score_float,
parse).  We embed the pure parts of the library shallowly:

* machine integers: `usize` is modelled as `Nat`; the Rust subtraction
  `index / 26 - 1` is modelled with an explicit underflow check (Rust panics
  on underflow in debug builds; the checked model returns `none` exactly
  where the Rust expression underflows);
* JSON values (`serde_json::Value`) are an inductive `Json`; a
  `serde_json::Number` is one of `posInt` (u64 payload), `negInt`
  (negative i64 payload) or `float`; the f64 payload of a float is modelled
  exactly as a rational (the concrete literals appearing in the claims,
  such as 4.5, are exactly representable as doubles, so nothing is lost);
* the HTTP transport and serde decoding of the response body are external
  collaborators; a primitive is a function of its arguments and of a
  `TransportResult` describing everything the code observes of the network:
  the send outcome, the HTTP status, the body text, and the result of
  decoding the body as a `ChatResponse`.  The reply message's content string
  is carried together with the result serde gives when parsing it as a JSON
  object (`JsonText`), since the library consults exactly that parse;
* Rust panics that the library can hit (unsigned underflow in
  `index_to_alpha`; `serde_json::Map`'s `Index` implementation on a missing
  key, which panics like the underlying `BTreeMap`) are made explicit with
  the `RunResult.panic` constructor, distinct from the library's own typed
  errors.
-/

namespace LlmPrimitives

/-! ## JSON value model (serde_json::Value) -/

/-- `serde_json::Number`: an unsigned integer, a negative integer, or an
IEEE double.  The double payload is modelled as an exact rational. -/
inductive JNumber where
  | posInt (n : Nat)
  | negInt (i : Int)
  | float (x : Rat)
deriving DecidableEq

/-- `serde_json::Value`. -/
inductive Json where
  | null
  | bool (b : Bool)
  | num (n : JNumber)
  | str (s : String)
  | arr (elems : List Json)
  | obj (fields : List (String × Json))

/-- A decoded JSON object (`serde_json::Map<String, Value>`), keys unique. -/
abbrev JsonObj := List (String × Json)

/-- `i64::MAX`. -/
def i64Max : Nat := 9223372036854775807

/-- `Number::as_i64`: succeeds on integers in i64 range; always fails on a
float payload (serde_json never converts a float to an integer). -/
def JNumber.asI64 : JNumber → Option Int
  | .posInt n => if n ≤ i64Max then some (n : Int) else none
  | .negInt i => some i
  | .float _ => none

/-- `Number::as_f64`: succeeds on every number. -/
def JNumber.asF64 : JNumber → Option Rat
  | .posInt n => some (n : Rat)
  | .negInt i => some (i : Rat)
  | .float x => some x

/-- `Value::as_str`. -/
def Json.asStr : Json → Option String
  | .str s => some s
  | _ => none

/-- `Value::as_i64`. -/
def Json.asI64 : Json → Option Int
  | .num n => n.asI64
  | _ => none

/-- `Value::as_f64`. -/
def Json.asF64 : Json → Option Rat
  | .num n => n.asF64
  | _ => none

/-- Key lookup in a decoded object (`Map::get`); keys are unique, so
first match suffices. -/
def objGet (fields : JsonObj) (key : String) : Option Json :=
  (fields.find? (fun f => f.1 == key)).map (fun f => f.2)

/-! ## Choice Codec: `index_to_alpha` and `display_choices`

Rust source (lib.rs:568-578):
```
fn index_to_alpha(mut index: usize) -> String {
    let mut alpha = String::new();
    loop {
        alpha = format!("{}{}", ('A' as u8 + (index % 26) as u8) as char, alpha);
        index = index / 26 - 1;
        if index == 0 {
            break;
        }
    }
    alpha
}
```
The update `index / 26 - 1` is evaluated before any check, so whenever
`index / 26 == 0` (in particular for every `index < 26`) the unsigned
subtraction underflows: a panic under checked arithmetic (debug builds).
The checked model returns `none` exactly at that underflow. -/

/-- One run of the loop of `index_to_alpha`, with checked subtraction:
`none` models the underflow panic of `index / 26 - 1` when `index / 26 = 0`. -/
def index_to_alpha_go (index : Nat) (alpha : String) : Option String :=
  let alpha1 := String.mk [Char.ofNat (65 + index % 26)] ++ alpha
  if index / 26 = 0 then
    none
  else
    let index1 := index / 26 - 1
    if index1 = 0 then some alpha1 else index_to_alpha_go index1 alpha1
termination_by index
decreasing_by
  have hle : index / 26 ≤ index := Nat.div_le_self index 26
  omega

/-- `index_to_alpha` under checked arithmetic. -/
def index_to_alpha (index : Nat) : Option String :=
  index_to_alpha_go index ""

/-- Loop of `display_choices` (lib.rs:560-564): one `"LABEL. choice"` line and
one `(label, index)` map entry per choice; `none` if a label panics. -/
def display_choices_go (i : Nat) : List String → Option (List String × List (String × Nat))
  | [] => some ([], [])
  | choice :: rest =>
    match index_to_alpha i with
    | none => none
    | some label =>
      match display_choices_go (i + 1) rest with
      | none => none
      | some (lines, table) =>
        some ((label ++ ". " ++ choice) :: lines, (label, i) :: table)

/-- `display_choices` (lib.rs:557-566): the display text and the
label-to-index map. -/
def display_choices (choices : List String) : Option (String × List (String × Nat)) :=
  match display_choices_go 0 choices with
  | none => none
  | some (lines, table) => some (String.intercalate "\n" lines, table)

/-- `HashMap::get` on the label-to-index map. -/
def tableGet (table : List (String × Nat)) (label : String) : Option Nat :=
  (table.find? (fun e => e.1 == label)).map (fun e => e.2)

/-- Spreadsheet column naming exactly as the spec describes it (§3, §4.2):
1-indexed base 26 with no symbol for zero; index 0 → "A", 25 → "Z",
26 → "AA".  Stated from the spec's words for comparison with the
source-derived `index_to_alpha`. -/
def alpha_spec (i : Nat) : String :=
  if i < 26 then
    String.mk [Char.ofNat (65 + i)]
  else
    alpha_spec (i / 26 - 1) ++ String.mk [Char.ofNat (65 + i % 26)]
termination_by i
decreasing_by
  have hlt : i / 26 < i := Nat.div_lt_self (by omega) (by omega)
  omega

/-! ## Messages, options, transport -/

/-- `MessageRole` (lib.rs:60-64). -/
inductive MessageRole where
  | system
  | assistant
  | user
deriving DecidableEq

/-- `Message` (lib.rs:94-99): role, content, and the optional decoded JSON
object. -/
structure Message where
  role : MessageRole
  content : String
  obj : Option JsonObj

/-- A reply content string together with the result `serde_json` gives when
parsing it as a JSON object (the external parse
`serde_json::from_str::<Map<String, Value>>`, lib.rs:252, supplied as data
alongside the raw string it was run on). -/
structure JsonText where
  raw : String
  asObj : Option JsonObj

/-- `OpenAIMessage` (lib.rs:101-105) as decoded from the chat response; its
content carries the external JSON-object parse of the string. -/
structure OpenAIMessage where
  role : MessageRole
  content : JsonText

/-- `Choice` (lib.rs:187-190). -/
structure Choice where
  message : OpenAIMessage

/-- `ChatResponse` (lib.rs:182-185). -/
structure ChatResponse where
  choices : List Choice

/-- Everything `generate_message` observes of the network round trip
(lib.rs:228-246): either the send failed, or a response arrived with a
status code, a body text, and the result of decoding the body as a
`ChatResponse` (`response.json::<ChatResponse>()`, external serde work
supplied as data). -/
inductive TransportResult where
  | sendErr (errText : String)
  | response (status : Nat) (bodyText : String) (decoded : Except String ChatResponse)

/-- `GenerateMessageOptions` (lib.rs:126-129); the builder defaults are
temperature 0.0 and `force_json = false` (lib.rs:137-142). -/
structure GenerateMessageOptions where
  temperature : Rat
  force_json : Bool

/-- `ResponseFormatType` (lib.rs:175-180). -/
inductive ResponseFormatType where
  | json_object
  | text
deriving DecidableEq

/-- `ResponseFormat` (lib.rs:170-173), field `r#type`. -/
structure ResponseFormat where
  type : ResponseFormatType
deriving DecidableEq

/-- Outgoing `OpenAIMessage` as placed in the request body: role and plain
content string (lib.rs:213-219). -/
structure RequestMessage where
  role : MessageRole
  content : String
deriving DecidableEq

/-- `ChatRequestBody` (lib.rs:162-168). -/
structure ChatRequestBody where
  model : String
  messages : List RequestMessage
  temperature : Rat
  response_format : ResponseFormat
deriving DecidableEq

/-- The request body `generate_message` sends (lib.rs:206-227): messages
projected to role/content, the options temperature, and the response format
selected by `force_json`. -/
def chatRequestBody (model : String) (messages : List Message)
    (options : GenerateMessageOptions) : ChatRequestBody :=
  { model := model
    messages := messages.map (fun m => { role := m.role, content := m.content })
    temperature := options.temperature
    response_format :=
      { type := if options.force_json then .json_object else .text } }

/-! ## Error types (lib.rs:580-643) -/

/-- `ChatError`. -/
structure ChatError where
  message : String
deriving DecidableEq

/-- `Display for ChatError` (lib.rs:639-643). -/
def ChatError.display (e : ChatError) : String :=
  "ChatError: " ++ e.message

/-- `ClassifyError`. -/
structure ClassifyError where
  message : String
deriving DecidableEq

/-- `GenerateTextError`. -/
structure GenerateTextError where
  message : String
deriving DecidableEq

/-- `ScoreFloatError`. -/
structure ScoreFloatError where
  message : String
deriving DecidableEq

/-- `ScoreIntError`. -/
structure ScoreIntError where
  message : String
deriving DecidableEq

/-- `ParseError`. -/
structure ParseError where
  message : String
deriving DecidableEq

/-- Outcome of running a primitive: a Rust panic (unsigned underflow in
`index_to_alpha`, or `serde_json::Map`'s `Index` on a missing key, which
panics like `BTreeMap` with "no entry found for key"), a typed error, or a
value. -/
inductive RunResult (ε α : Type) where
  | panic (msg : String)
  | error (e : ε)
  | ok (a : α)

/-! ## `generate_message` (lib.rs:201-291) -/

/-- `generate_message` as a function of the options and the observed
transport outcome.  Mirrors lib.rs:235-290: a send error becomes a
`ChatError` with the error's text; a non-OK status becomes
"status: body" (the real `Display` of `reqwest::StatusCode` appends the
canonical reason after the numeric code; the model renders the code, which
is what the containment claims consume); a body that fails to decode as
`ChatResponse` becomes "Failed to parse response, error: …"; an empty
choice list becomes "Choice not found in response"; with `force_json`, the
first choice's content must parse as a JSON object (else
"Failed to parse response"), and the object is stored in `obj`; without
`force_json`, `obj` is `none`. -/
def generate_message (options : GenerateMessageOptions)
    (transport : TransportResult) : Except ChatError Message :=
  match transport with
  | .sendErr e => .error { message := e }
  | .response status bodyText decoded =>
    if status ≠ 200 then
      .error { message := toString status ++ ": " ++ bodyText }
    else
      match decoded with
      | .error e => .error { message := "Failed to parse response, error: " ++ e }
      | .ok chat_response =>
        match chat_response.choices.head? with
        | none => .error { message := "Choice not found in response" }
        | some choice =>
          if options.force_json then
            match choice.message.content.asObj with
            | some o =>
              .ok { role := choice.message.role
                    content := choice.message.content.raw
                    obj := some o }
            | none => .error { message := "Failed to parse response" }
          else
            .ok { role := choice.message.role
                  content := choice.message.content.raw
                  obj := none }

/-! ## The primitives (lib.rs:294-537)

Each primitive builds its two messages and options (the request side, checked
through `chatRequestBody`) and then decodes the reply delivered by the
transport.  Panics the Rust code can hit are explicit `RunResult.panic`
outcomes: the `index_to_alpha` underflow (debug-build message
"attempt to subtract with overflow"), and indexing a `serde_json::Map` at a
missing key (`obj["classification"]`, `obj["score"]`), which panics like
`BTreeMap` with "no entry found for key". -/

/-- classify's system message (lib.rs:309). -/
def classify_system_content : String :=
  "Classify the following text with the provided instruction and choices. To classify, provide the key of the choice:\n\x7b\"classification\": string\x7d\n\nFor example, if the correct choice is \x27Z. description of choice Z\x27, then provide \x27Z\x27 as the classification as valid JSON:\n\x7b\"classification\": \"Z\"\x7d"

/-- classify's user message (lib.rs:302-305). -/
def classify_input_text (instruction text choices_display : String) : String :=
  "Instruction:\n" ++ instruction ++ "\n\nText:\n" ++ text
    ++ "\n\nChoices:\n" ++ choices_display ++ "\n\nValid JSON:"

/-- classify's generation options (lib.rs:318-321). -/
def classify_options : GenerateMessageOptions :=
  { temperature := 0, force_json := true }

/-- classify's message sequence (lib.rs:306-317). -/
def classify_messages (instruction text choices_display : String) : List Message :=
  [ { role := .system, content := classify_system_content, obj := none },
    { role := .user
      content := classify_input_text instruction text choices_display
      obj := none } ]

/-- `classify` (lib.rs:295-347): label the choices, send, then decode the
`classification` field through the label-to-index map. -/
def classify (instruction text : String) (choices : List String)
    (transport : TransportResult) : RunResult ClassifyError Nat :=
  match display_choices choices with
  | none => .panic "attempt to subtract with overflow"
  | some (_choices_display, lookup_table) =>
    match generate_message classify_options transport with
    | .error _ => .error { message := "Failed to generate message" }
    | .ok message =>
      match message.obj with
      | none => .error { message := "Object not found in response" }
      | some obj =>
        match objGet obj "classification" with
        | none => .panic "no entry found for key"
        | some v =>
          match v.asStr with
          | none => .error { message := "Classification not found in response" }
          | some classification =>
            match tableGet lookup_table classification with
            | some choice_index => .ok choice_index
            | none =>
              .error { message := "Invalid classification: " ++ classification }

/-- `binary_classify` (lib.rs:349-361): classify over `["true", "false"]`,
true iff the decoded index is 0. -/
def binary_classify (instruction text : String)
    (transport : TransportResult) : RunResult ClassifyError Bool :=
  match classify instruction text ["true", "false"] transport with
  | .panic m => .panic m
  | .error e => .error e
  | .ok index => .ok (index == 0)

/-- generate_text's generation options (lib.rs:380-383). -/
def generate_text_options : GenerateMessageOptions :=
  { temperature := 0, force_json := false }

/-- generate_text's message sequence (lib.rs:368-379): instruction and text
verbatim. -/
def generate_text_messages (instruction text : String) : List Message :=
  [ { role := .system, content := instruction, obj := none },
    { role := .user, content := text, obj := none } ]

/-- `generate_text` (lib.rs:363-391): send without structured output and
return the raw reply content. -/
def generate_text (instruction text : String)
    (transport : TransportResult) : Except GenerateTextError String :=
  match generate_message generate_text_options transport with
  | .ok message => .ok message.content
  | .error _ => .error { message := "Failed to generate message" }

/-- The scoring primitives' user message (lib.rs:400-403, 448-451), with the
bounds rendered by `Display`. -/
def score_input_text (instruction text lo hi : String) : String :=
  "Instruction:\n" ++ instruction ++ "\n\nText:\n" ++ text
    ++ "\n\nRange:\n[" ++ lo ++ ", " ++ hi ++ "]\n\nValid JSON:"

/-- score_float's system message (lib.rs:407). -/
def score_float_system_content : String :=
  "Score the following text with the provided instruction and range as a float value as valid JSON:\n\x7b\"score\": float\x7d"

/-- score_float's message sequence (lib.rs:404-415). -/
def score_float_messages (instruction text : String) (min_bound max_bound : Rat) :
    List Message :=
  [ { role := .system, content := score_float_system_content, obj := none },
    { role := .user
      content := score_input_text instruction text
        (toString min_bound) (toString max_bound)
      obj := none } ]

/-- score options (lib.rs:416-419, 464-467). -/
def score_options : GenerateMessageOptions :=
  { temperature := 0, force_json := true }

/-- `score_float` (lib.rs:393-439): decode the `score` field with `as_f64`;
the bounds appear only in the prompt and are never checked against the
decoded value. -/
def score_float (instruction text : String) (min_bound max_bound : Rat)
    (transport : TransportResult) : RunResult ScoreFloatError Rat :=
  match generate_message score_options transport with
  | .error _ => .error { message := "Failed to generate message" }
  | .ok message =>
    match message.obj with
    | none => .error { message := "Object not found in response" }
    | some obj =>
      match objGet obj "score" with
      | none => .panic "no entry found for key"
      | some v =>
        match v.asF64 with
        | some score => .ok score
        | none => .error { message := "Score not found in response" }

/-- score_int's system message (lib.rs:455). -/
def score_int_system_content : String :=
  "Score the following text with the provided instruction and range as an integer value as valid JSON:\n\x7b\"score\": int\x7d"

/-- score_int's message sequence (lib.rs:452-463). -/
def score_int_messages (instruction text : String) (min_bound max_bound : Int) :
    List Message :=
  [ { role := .system, content := score_int_system_content, obj := none },
    { role := .user
      content := score_input_text instruction text
        (toString min_bound) (toString max_bound)
      obj := none } ]

/-- `score_int` (lib.rs:441-487): decode the `score` field with `as_i64`;
bounds appear only in the prompt. -/
def score_int (instruction text : String) (min_bound max_bound : Int)
    (transport : TransportResult) : RunResult ScoreIntError Int :=
  match generate_message score_options transport with
  | .error _ => .error { message := "Failed to generate message" }
  | .ok message =>
    match message.obj with
    | none => .error { message := "Object not found in response" }
    | some obj =>
      match objGet obj "score" with
      | none => .panic "no entry found for key"
      | some v =>
        match v.asI64 with
        | some score => .ok score
        | none => .error { message := "Score not found in response" }

/-- `json_response_to_obj` (lib.rs:544-555): `to_string(&json_response)`
followed by `serde_json::from_str::<T>`.  For a JSON object this
serialize-then-deserialize composition equals running T's deserializer
directly on the object tree; the deserializer of the concrete target type
(serde's derived `Deserialize`) is supplied as `deserT`.  `Except Unit`
mirrors `Result<T, fmt::Error>`. -/
def json_response_to_obj {T : Type} (deserT : JsonObj → Option T)
    (json_response : JsonObj) : Except Unit T :=
  match deserT json_response with
  | some obj => .ok obj
  | none => .error ()

/-- parse's system message (lib.rs:501). -/
def parse_system_content : String :=
  "Parse the following text with the provided schema."

/-- parse's user message (lib.rs:494-497), with the schema string produced
externally by `schema_for!` (lib.rs:539-542). -/
def parse_input_text (text json_schema_string : String) : String :=
  "Text:\n" ++ text ++ "\n\nSchema:\n" ++ json_schema_string ++ "\n\nValid JSON:"

/-- parse's message sequence (lib.rs:498-509). -/
def parse_messages (text json_schema_string : String) : List Message :=
  [ { role := .system, content := parse_system_content, obj := none },
    { role := .user, content := parse_input_text text json_schema_string
      obj := none } ]

/-- parse options (lib.rs:510-513). -/
def parse_options : GenerateMessageOptions :=
  { temperature := 0, force_json := true }

/-- `parse` (lib.rs:489-536): send with structured output, then deserialize
the decoded object against the target type; a transport-level `ChatError`
is propagated through its `Display` rendering (lib.rs:530-534). -/
def parse {T : Type} (deserT : JsonObj → Option T)
    (text : String) (transport : TransportResult) : Except ParseError T :=
  match generate_message parse_options transport with
  | .error e => .error { message := e.display }
  | .ok message =>
    match message.obj with
    | none => .error { message := "Object not found in response" }
    | some obj =>
      match json_response_to_obj deserT obj with
      | .ok parsed_obj => .ok parsed_obj
      | .error _ => .error { message := "Failed to parse response" }

/-! ## A concrete `parse` target: the repository's `Address`
(src/src/main.rs: `struct Address { street: String, number: i64 }`). -/

/-- `Address` from src/src/main.rs. -/
structure Address where
  street : String
  number : Int
deriving DecidableEq

/-- Field loop of serde's derived `Deserialize for Address`: walk the object
entries; a duplicate field or a wrong-typed value is an error, unknown
fields are ignored (serde's default), and at the end both required fields
must have been seen.  An `i64` field accepts exactly the integers `as_i64`
accepts (floats are rejected, out-of-range u64 is rejected). -/
def addressFieldsLoop : JsonObj → Option String → Option Int → Option Address
  | [], some street, some number => some { street := street, number := number }
  | [], _, _ => none
  | (key, v) :: rest, accStreet, accNumber =>
    if key == "street" then
      match accStreet, v with
      | none, .str s => addressFieldsLoop rest (some s) accNumber
      | _, _ => none
    else if key == "number" then
      match accNumber, v.asI64 with
      | none, some n => addressFieldsLoop rest accStreet (some n)
      | _, _ => none
    else
      addressFieldsLoop rest accStreet accNumber

/-- serde's derived `Deserialize for Address`, on a decoded JSON object. -/
def addressFromObj (o : JsonObj) : Option Address :=
  addressFieldsLoop o none none

/-! ## Concrete transports for the claims -/

/-- A successful round trip whose single reply carries the given content. -/
def replyWith (content : JsonText) : TransportResult :=
  .response 200 ""
    (.ok { choices := [{ message := { role := .assistant, content := content } }] })

/-- A successful round trip whose single reply content parses as the given
JSON object. -/
def replyObj (o : JsonObj) : TransportResult :=
  replyWith { raw := "", asObj := some o }

/-- Substring test, for the containment side of the transport-error claims:
`needle` occurs contiguously in `hay`. -/
def strContains (hay needle : String) : Bool :=
  (List.range (hay.length + 1)).any fun i =>
    (hay.toList.drop i).take needle.length == needle.toList

/-! ## Shared lemmas -/

/-- The loop update `index / 26 - 1` underflows at every index below 26,
so checked `index_to_alpha` returns no label there. -/
theorem index_to_alpha_underflow (i : Nat) (h : i < 26) :
    index_to_alpha i = none := by
  unfold index_to_alpha index_to_alpha_go
  simp [Nat.div_eq_of_lt h]

/-- Labelling any nonempty choice list hits the index-0 underflow. -/
theorem display_choices_cons_none (c : String) (cs : List String) :
    display_choices (c :: cs) = none := by
  unfold display_choices display_choices_go
  rw [index_to_alpha_underflow 0 (by omega)]

/-- Labelling the empty choice list succeeds trivially: no label is built. -/
theorem dc_empty : display_choices [] = some ("", []) := by rfl

/-- On a non-OK status, `generate_message` fails with "status: body"
(lib.rs:237-245). -/
theorem gm_non200 (options : GenerateMessageOptions) (status : Nat) (body : String)
    (d : Except String ChatResponse) (hs : status ≠ 200) :
    generate_message options (.response status body d)
      = .error { message := toString status ++ ": " ++ body } := by
  simp only [generate_message]
  rw [if_pos hs]

/-- The invalid-classification message never coincides with the
missing-object message: the first characters already differ. -/
theorem invalid_classification_ne (s : String) :
    "Invalid classification: " ++ s ≠ "Object not found in response" := by
  intro h
  have h2 := congrArg (fun t => t.data.head?) h
  simp only [String.data_append] at h2
  have hL : ("Invalid classification: ".data ++ s.data).head? = some 'I' := by
    cases s with
    | mk d => rfl
  rw [hL] at h2
  simp at h2

/-- A rendered `ChatError` never coincides with the missing-object message:
the first characters already differ. -/
theorem chat_error_display_ne (m : String) :
    "ChatError: " ++ m ≠ "Object not found in response" := by
  intro h
  have h2 := congrArg (fun t => t.data.head?) h
  simp only [String.data_append] at h2
  have hL : ("ChatError: ".data ++ m.data).head? = some 'C' := by
    cases m with
    | mk d => rfl
  rw [hL] at h2
  simp at h2

/-- When `force_json` is set, a successful `generate_message` always returns
a message with `obj` populated: the `force_json` branch (lib.rs:250-263)
only succeeds after the content parsed as a JSON object. -/
theorem gm_force_json_obj (options : GenerateMessageOptions) (transport : TransportResult)
    (m : Message) (hf : options.force_json = true)
    (h : generate_message options transport = .ok m) : m.obj.isSome = true := by
  cases transport with
  | sendErr e => simp [generate_message] at h
  | response status bodyText decoded =>
    simp only [generate_message] at h
    by_cases hs : status ≠ 200
    · rw [if_pos hs] at h
      simp at h
    · rw [if_neg hs] at h
      cases decoded with
      | error e => simp at h
      | ok cr =>
        cases hc : cr.choices.head? with
        | none =>
          simp only [hc] at h
          simp at h
        | some choice =>
          simp only [hc, hf, if_true] at h
          cases ha : choice.message.content.asObj with
          | none =>
            simp only [ha] at h
            simp at h
          | some o =>
            simp only [ha] at h
            injection h with h2
            rw [← h2]
            rfl

/-- classify never produces the missing-object error (lib.rs:337-341): its
backend call always sets `force_json`. -/
theorem classify_no_missing_obj (instruction text : String) (choices : List String)
    (t : TransportResult) :
    classify instruction text choices t
      ≠ .error { message := "Object not found in response" } := by
  intro h
  simp only [classify] at h
  cases hd : display_choices choices with
  | none =>
    simp only [hd] at h
    simp at h
  | some p =>
    obtain ⟨cd, table⟩ := p
    cases hg : generate_message classify_options t with
    | error e =>
      simp only [hd, hg] at h
      simp at h
    | ok m =>
      have hobj := gm_force_json_obj _ _ _ rfl hg
      obtain ⟨o, ho⟩ := Option.isSome_iff_exists.mp hobj
      simp only [hd, hg, ho] at h
      cases hco : objGet o "classification" with
      | none =>
        simp only [hco] at h
        simp at h
      | some v =>
        cases hv : v.asStr with
        | none =>
          simp only [hco, hv] at h
          simp at h
        | some cls =>
          cases ht : tableGet table cls with
          | some i =>
            simp only [hco, hv, ht] at h
            simp at h
          | none =>
            simp only [hco, hv, ht] at h
            injection h with h2
            injection h2 with h3
            exact invalid_classification_ne _ h3

/-- score_int never produces the missing-object error (lib.rs:477-481). -/
theorem score_int_no_missing_obj (instruction text : String) (mn mx : Int)
    (t : TransportResult) :
    score_int instruction text mn mx t
      ≠ .error { message := "Object not found in response" } := by
  intro h
  simp only [score_int] at h
  cases hg : generate_message score_options t with
  | error e =>
    simp only [hg] at h
    simp at h
  | ok m =>
    have hobj := gm_force_json_obj _ _ _ rfl hg
    obtain ⟨o, ho⟩ := Option.isSome_iff_exists.mp hobj
    simp only [hg, ho] at h
    cases hsc : objGet o "score" with
    | none =>
      simp only [hsc] at h
      simp at h
    | some v =>
      cases hv : v.asI64 with
      | none =>
        simp only [hsc, hv] at h
        simp at h
      | some n =>
        simp only [hsc, hv] at h
        simp at h

/-- score_float never produces the missing-object error (lib.rs:429-433). -/
theorem score_float_no_missing_obj (instruction text : String) (mn mx : Rat)
    (t : TransportResult) :
    score_float instruction text mn mx t
      ≠ .error { message := "Object not found in response" } := by
  intro h
  simp only [score_float] at h
  cases hg : generate_message score_options t with
  | error e =>
    simp only [hg] at h
    simp at h
  | ok m =>
    have hobj := gm_force_json_obj _ _ _ rfl hg
    obtain ⟨o, ho⟩ := Option.isSome_iff_exists.mp hobj
    simp only [hg, ho] at h
    cases hsc : objGet o "score" with
    | none =>
      simp only [hsc] at h
      simp at h
    | some v =>
      cases hv : v.asF64 with
      | none =>
        simp only [hsc, hv] at h
        simp at h
      | some q =>
        simp only [hsc, hv] at h
        simp at h

/-- parse never produces the missing-object error (lib.rs:524-528). -/
theorem parse_no_missing_obj (T : Type) (deserT : JsonObj → Option T) (text : String)
    (t : TransportResult) :
    parse deserT text t ≠ .error { message := "Object not found in response" } := by
  intro h
  simp only [parse] at h
  cases hg : generate_message parse_options t with
  | error e =>
    simp only [hg, ChatError.display] at h
    injection h with h2
    injection h2 with h3
    exact chat_error_display_ne _ h3
  | ok m =>
    have hobj := gm_force_json_obj _ _ _ rfl hg
    obtain ⟨o, ho⟩ := Option.isSome_iff_exists.mp hobj
    simp only [hg, ho] at h
    cases hj : json_response_to_obj deserT o with
    | ok v =>
      simp only [hj] at h
      simp at h
    | error u =>
      simp only [hj] at h
      simp at h

/-- With an empty choice set and a successful structured reply, classify is
determined by the `classification` field of the reply object: a missing key
panics via the map index, a non-string value is a missing-field error, and
any string is unmapped (the table is empty) and reported as invalid. -/
theorem classify_replyObj (instruction text : String) (o : JsonObj) :
    classify instruction text [] (replyObj o) =
      match objGet o "classification" with
      | none => .panic "no entry found for key"
      | some v =>
        match v.asStr with
        | none => .error { message := "Classification not found in response" }
        | some classification =>
          .error { message := "Invalid classification: " ++ classification } := by
  rfl

/-! ## The claims -/

/-- C1: the claimed Choice Codec round-trip (decode(encode(choices).label_for(i))
= i for every list of length 1..100) cannot hold because encoding itself
fails: for every nonempty choice list, `display_choices` reaches
`index_to_alpha 0`, whose loop update `0 / 26 - 1` underflows usize
subtraction (panic under checked arithmetic), so no label is ever produced
for any valid index. -/
theorem C1_display_choices_fails_on_nonempty (c : String) (cs : List String) :
    display_choices (c :: cs) = none :=
  display_choices_cons_none c cs

/-- C2: label generation does not follow spreadsheet column naming:
`index_to_alpha` underflows (no label) at index 0 and index 25, and maps
index 26 to "A" rather than "AA"; the spec's spreadsheet naming
(`alpha_spec`) gives "A", "Z", "AA" at those indices.  Consequently the
label sequence for a 27-element list is not A..Z, AA. -/
theorem C2_index_to_alpha_diverges_from_spreadsheet_naming :
    index_to_alpha 0 = none ∧ index_to_alpha 25 = none ∧ index_to_alpha 26 = some "A"
      ∧ alpha_spec 0 = "A" ∧ alpha_spec 25 = "Z" ∧ alpha_spec 26 = "AA" := by
  refine ⟨index_to_alpha_underflow 0 (by omega), index_to_alpha_underflow 25 (by omega),
    ?_, ?_, ?_, ?_⟩
  · simp [index_to_alpha, index_to_alpha_go]
  · simp [alpha_spec]
  · simp [alpha_spec]
  · simp [alpha_spec]

/-- C3 counterexample: on HTTP 500 with body "server error", generate_text
returns the fixed message "Failed to generate message", which contains
neither the status nor the body text — refuting the claim that every
primitive surfaces both. -/
theorem C3_counterexample_error_swallowed :
    generate_text "i" "t" (.response 500 "server error" (.ok { choices := [] }))
      = .error { message := "Failed to generate message" }
    ∧ strContains "Failed to generate message" "500" = false
    ∧ strContains "Failed to generate message" "server error" = false :=
  ⟨rfl, by decide, by decide⟩

/-- C3 amended: on a non-success status, `generate_message` fails with
"status: body", and only `parse` propagates that text (wrapped by the
`ChatError` display) to its caller; classify, generate_text, score_int and
score_float all replace it with the fixed message
"Failed to generate message", which carries neither the status nor the
body. -/
theorem C3_amended_only_parse_propagates_status_and_body (status : Nat) (body : String)
    (hs : status ≠ 200) (d : Except String ChatResponse) (instruction text ptext : String)
    (mn mx : Int) (mnf mxf : Rat) (T : Type) (deserT : JsonObj → Option T) :
    generate_message classify_options (.response status body d)
        = .error { message := toString status ++ ": " ++ body }
    ∧ parse deserT ptext (.response status body d)
        = .error { message := "ChatError: " ++ (toString status ++ ": " ++ body) }
    ∧ generate_text instruction text (.response status body d)
        = .error { message := "Failed to generate message" }
    ∧ classify instruction text [] (.response status body d)
        = .error { message := "Failed to generate message" }
    ∧ score_int instruction text mn mx (.response status body d)
        = .error { message := "Failed to generate message" }
    ∧ score_float instruction text mnf mxf (.response status body d)
        = .error { message := "Failed to generate message" } := by
  have hg := fun o => gm_non200 o status body d hs
  refine ⟨hg _, ?_, ?_, ?_, ?_, ?_⟩
  · simp only [parse, hg parse_options, ChatError.display]
  · simp only [generate_text, hg generate_text_options]
  · simp only [classify, dc_empty, hg classify_options]
  · simp only [score_int, hg score_options]
  · simp only [score_float, hg score_options]

/-- C3 witness: the amended statement at status 500, body "server error". -/
theorem C3_amended_witness :
    generate_message classify_options (.response 500 "server error" (.ok { choices := [] }))
        = .error { message := toString 500 ++ ": " ++ "server error" }
    ∧ parse addressFromObj "p" (.response 500 "server error" (.ok { choices := [] }))
        = .error { message := "ChatError: " ++ (toString 500 ++ ": " ++ "server error") }
    ∧ generate_text "i" "t" (.response 500 "server error" (.ok { choices := [] }))
        = .error { message := "Failed to generate message" }
    ∧ classify "i" "t" [] (.response 500 "server error" (.ok { choices := [] }))
        = .error { message := "Failed to generate message" }
    ∧ score_int "i" "t" 1 5 (.response 500 "server error" (.ok { choices := [] }))
        = .error { message := "Failed to generate message" }
    ∧ score_float "i" "t" 1 5 (.response 500 "server error" (.ok { choices := [] }))
        = .error { message := "Failed to generate message" } :=
  C3_amended_only_parse_propagates_status_and_body 500 "server error" (by decide)
    (.ok { choices := [] }) "i" "t" "p" 1 5 1 5 Address addressFromObj

/-- C4 counterexample: when the reply object lacks the "classification" key,
classify does not return an error — it panics, because
`obj["classification"]` indexes a `serde_json::Map` at a missing key
(evaluated here with the empty choice set, the only choice set whose label
construction itself does not already panic). -/
theorem C4_counterexample_missing_field_panics :
    classify "i" "t" [] (replyObj []) = .panic "no entry found for key" := rfl

/-- C4 amended: with the empty choice set (nonempty sets panic earlier in
label construction, see C1/C6): a present but non-string "classification"
value yields the missing-field error; a present string not in the
label-to-index map yields the invalid-classification error carrying the
offending label; but a missing "classification" key panics via the map
index instead of returning an error. -/
theorem C4_amended_classification_decoding (instruction text s : String) (v : Json)
    (rest o : JsonObj) :
    classify instruction text [] (replyObj (("classification", Json.str s) :: rest))
        = .error { message := "Invalid classification: " ++ s }
    ∧ (v.asStr = none →
        classify instruction text [] (replyObj (("classification", v) :: rest))
          = .error { message := "Classification not found in response" })
    ∧ (objGet o "classification" = none →
        classify instruction text [] (replyObj o) = .panic "no entry found for key") := by
  refine ⟨?_, ?_, ?_⟩
  · rw [classify_replyObj]
    rfl
  · intro hv
    rw [classify_replyObj]
    simp only [show objGet (("classification", v) :: rest) "classification" = some v from rfl,
      hv]
  · intro ho
    rw [classify_replyObj, ho]

/-- C4 witness: the amended statement at label "A" and at the non-string
value `null`. -/
theorem C4_amended_witness :
    classify "i" "t" [] (replyObj [("classification", Json.str "A")])
        = .error { message := "Invalid classification: " ++ "A" }
    ∧ classify "i" "t" [] (replyObj [("classification", Json.null)])
        = .error { message := "Classification not found in response" } :=
  ⟨(C4_amended_classification_decoding "i" "t" "A" Json.null [] []).1,
    (C4_amended_classification_decoding "i" "t" "A" Json.null [] []).2.1 rfl⟩

/-- C5: score_int decodes `{"score": 4}` to Ok 4 for every declared range,
rejects the fractional `{"score": 4.5}` with the score error instead of
truncating (serde's `as_i64` refuses every float payload), and score_float
accepts every double `{"score": q}` as Ok q. -/
theorem C5_score_decoding_exact_integral (instruction text : String) (mn mx : Int)
    (raw : String) :
    score_int instruction text mn mx
        (replyWith { raw := raw, asObj := some [("score", .num (.posInt 4))] }) = .ok 4
    ∧ score_int instruction text mn mx
        (replyWith { raw := raw, asObj := some [("score", .num (.float (9/2 : Rat)))] })
        = .error { message := "Score not found in response" }
    ∧ ∀ (q mnf mxf : Rat),
        score_float instruction text mnf mxf
          (replyWith { raw := raw, asObj := some [("score", .num (.float q))] }) = .ok q :=
  ⟨rfl, rfl, fun _ _ _ => rfl⟩

/-- C6: binary_classify does delegate to classify with choices
["true", "false"], but for every transport outcome it panics in label
construction (`index_to_alpha 0` underflows) before any request could be
made — so `{"classification": "A"}` can never yield Ok true. -/
theorem C6_binary_classify_panics_before_request (instruction text : String)
    (t : TransportResult) :
    binary_classify instruction text t = .panic "attempt to subtract with overflow" := by
  simp [binary_classify, classify, display_choices_cons_none]

/-- C7: generate_text puts the instruction verbatim into the system message
and the text verbatim into the user message, requests plain-text (not
structured) output, and on success returns the reply content string exactly
as received, whatever its JSON parse would have been. -/
theorem C7_generate_text_verbatim_no_json (model instruction text : String) :
    chatRequestBody model (generate_text_messages instruction text) generate_text_options
      = { model := model
          messages := [{ role := .system, content := instruction },
            { role := .user, content := text }]
          temperature := 0
          response_format := { type := .text } }
    ∧ ∀ (role : MessageRole) (content : JsonText) (body : String),
        generate_text instruction text
          (.response 200 body
            (.ok { choices := [{ message := { role := role, content := content } }] }))
          = .ok content.raw :=
  ⟨rfl, fun _ _ _ => rfl⟩

/-- C8: parse against the repository's `Address` target decodes the reply
object `{"street": "123 main st", "number": 123}` to the equal value, and
rejects `{"street": "x"}` (missing required `number`) with the parse
error. -/
theorem C8_parse_reserialize_deserialize (text : String) :
    parse addressFromObj text
        (replyObj [("street", .str "123 main st"), ("number", .num (.posInt 123))])
      = .ok { street := "123 main st", number := 123 }
    ∧ parse addressFromObj text (replyObj [("street", .str "x")])
      = .error { message := "Failed to parse response" } :=
  ⟨rfl, rfl⟩

/-- C9: whenever generate_message is called with `force_json` set and
returns Ok, the returned message's decoded object is populated; hence the
"Object not found in response" branch of classify, score_int, score_float
and parse is unreachable for every backend reply. -/
theorem C9_force_json_obj_always_present :
    (∀ (options : GenerateMessageOptions) (transport : TransportResult) (m : Message),
        options.force_json = true → generate_message options transport = .ok m →
          m.obj.isSome = true)
    ∧ (∀ (instruction text : String) (choices : List String) (t : TransportResult),
        classify instruction text choices t
          ≠ .error { message := "Object not found in response" })
    ∧ (∀ (instruction text : String) (mn mx : Int) (t : TransportResult),
        score_int instruction text mn mx t
          ≠ .error { message := "Object not found in response" })
    ∧ (∀ (instruction text : String) (mnf mxf : Rat) (t : TransportResult),
        score_float instruction text mnf mxf t
          ≠ .error { message := "Object not found in response" })
    ∧ (∀ (T : Type) (deserT : JsonObj → Option T) (text : String) (t : TransportResult),
        parse deserT text t ≠ .error { message := "Object not found in response" }) :=
  ⟨gm_force_json_obj, classify_no_missing_obj, score_int_no_missing_obj,
    score_float_no_missing_obj, parse_no_missing_obj⟩

/-- C9 witness: a concrete `force_json` success whose message carries a
populated object. -/
theorem C9_witness :
    ({ role := MessageRole.assistant, content := "", obj := some ([] : JsonObj) }
        : Message).obj.isSome = true :=
  C9_force_json_obj_always_present.1 classify_options (replyObj [])
    { role := .assistant, content := "", obj := some [] } rfl rfl

/-- C10: `index_to_alpha` is not total under checked arithmetic — for every
index below 26 (exactly the condition index / 26 = 0 named by the claim)
the loop update `index / 26 - 1` underflows unsigned subtraction, so the
function panics instead of returning a label. -/
theorem C10_index_to_alpha_underflows_below_26 (i : Nat) (h : i < 26) :
    index_to_alpha i = none :=
  index_to_alpha_underflow i h

/-- C10 witness: the underflow at index 3. -/
theorem C10_witness : 3 < 26 ∧ index_to_alpha 3 = none :=
  ⟨by omega, C10_index_to_alpha_underflows_below_26 3 (by omega)⟩

end LlmPrimitives
